import Mathlib

/-
  Verification development for the AudioWeaver document-to-audio pipeline.

  Shallow embedding of:
  - server/lib/gemini-api.ts  : generateSummary (title/description derivation)
  - server/storage.ts         : getUploads, saveApiKeys, getApiKeys,
                                processing-job updates, summary records
  - server routes             : processDocuments (the pipeline orchestrator)
                                and the POST /api/process handler
  - client processing-section : the status poller's per-poll decision

  Collaborator calls (PDF text extraction, the Gemini model call, the
  ElevenLabs synthesis call) are modelled as oracle functions in an
  environment record; the orchestrator's control flow, the exact strings it
  builds, and the sequence of store writes it performs are translated from
  the source.  JavaScript string operations are re-implemented over
  List Char so that every definition evaluates inside the kernel.
-/

namespace AudioWeaver

/-! ### JavaScript string primitives (kernel-computable) -/

/-- JS String.prototype.trim: drop leading and trailing whitespace. -/
def jsTrim (s : String) : String :=
  String.mk (((s.toList.dropWhile Char.isWhitespace).reverse.dropWhile
    Char.isWhitespace).reverse)

/-- Helper for splitting on newline characters, accumulating the current
line in reverse. -/
def splitLinesAux : List Char → List Char → List String
  | [], acc => [String.mk acc.reverse]
  | c :: cs, acc =>
    if c = '\n' then String.mk acc.reverse :: splitLinesAux cs []
    else splitLinesAux cs (c :: acc)

/-- JS text.split of a string at newline characters. -/
def splitLines (s : String) : List String := splitLinesAux s.toList []

/-- JS String.prototype.substring limited to a prefix: substring of length n
counted from the start. -/
def jsTake (s : String) (n : Nat) : String := String.mk (s.toList.take n)

/-! ### gemini-api.ts — generateSummary's pure derivation

The Gemini model call itself is an external collaborator; what the source
does with the returned narrative text is pure string manipulation,
embedded here.  From src/server/lib/gemini-api.ts lines 117-151. -/

/-- Source line 117: text.split of newline filtered to lines whose trimmed
length is positive. -/
def nonEmptyLines (text : String) : List String :=
  (splitLines text).filter (fun line => (jsTrim line).length != 0)

/-- Source line 120: lines[0].replace of the regex matching one leading
hash sign followed by whitespace, with the empty string. -/
def stripHeading (s : String) : String :=
  match s.toList with
  | '#' :: rest => String.mk (rest.dropWhile Char.isWhitespace)
  | _ => s

/-- Source line 120: the first filtered line becomes the title, with the
generic fallback when no line survives the filter. -/
def deriveTitle (text : String) : String :=
  match nonEmptyLines text with
  | [] => "Document Summary"
  | l :: _ => stripHeading l

/-- Source lines 126-136: the loop over lines starting at index 1 that
skips the first non-empty line it sees (foundFirstParagraph) and returns
the next one.  The found flag records whether a non-empty line has been
skipped already. -/
def descLoop : List String → Bool → String
  | [], _ => ""
  | l :: rest, found =>
    if (jsTrim l).length != 0 then
      if found then l else descLoop rest true
    else descLoop rest found

/-- Source lines 122-145: description derivation, with the generic fallback
string and the 200-character truncation to a 197-character prefix plus an
ellipsis marker. -/
def deriveDescription (text : String) : String :=
  let lines := nonEmptyLines text
  let raw := descLoop (lines.drop 1) false
  let d := if raw = "" then "An AI-generated summary of the uploaded documents." else raw
  if d.length > 200 then jsTake d 197 ++ "..." else d

/-- The SummaryResult record returned by generateSummary. -/
structure SummaryResult where
  title : String
  description : String
  text : String
deriving DecidableEq

/-- Source lines 147-151: the returned record pairs the derived title and
description with the full narrative text. -/
def mkSummaryResult (narrative : String) : SummaryResult :=
  { title := deriveTitle narrative
    description := deriveDescription narrative
    text := narrative }

/-! ### storage.ts — records and lookups -/

/-- A stored upload record (uploads table row). -/
structure Upload where
  id : Nat
  filename : String
  filepath : String
  size : Nat
deriving DecidableEq

/-- storage.getUploads: one select per id, keeping the ids' order and
silently dropping ids that match no row. -/
def getUploads (store : List Upload) (ids : List Nat) : List Upload :=
  ids.filterMap (fun i => store.find? (fun u => u.id == i))

/-- Processing-job status strings used by the pipeline. -/
inductive Status
  | pending
  | processing
  | summarizing
  | converting
  | completed
  | error
deriving DecidableEq

/-- The mutable fields of a processing-job row that the pipeline touches. -/
structure Job where
  status : Status
  progress : Nat
  error : Option String
  completedAt : Bool
deriving DecidableEq

/-- storage.createProcessingJob initialises status pending and progress 0. -/
def initialJob : Job :=
  { status := Status.pending, progress := 0, error := none, completedAt := false }

/-- A fragment passed to storage.updateProcessingJob: only the fields
present in the argument object are written. -/
structure JobUpdate where
  status : Option Status
  progress : Option Nat
  error : Option String
  completedAt : Bool
deriving DecidableEq

/-- Applying a selective update to a job row. -/
def applyUpdate (j : Job) (u : JobUpdate) : Job :=
  { status := u.status.getD j.status
    progress := u.progress.getD j.progress
    error := match u.error with | some e => some e | none => j.error
    completedAt := j.completedAt || u.completedAt }

/-- The update written on entering the processing stage. -/
def updProcessing : JobUpdate :=
  { status := some Status.processing, progress := some 20, error := none, completedAt := false }

/-- The update written on entering the summarizing stage. -/
def updSummarizing : JobUpdate :=
  { status := some Status.summarizing, progress := some 40, error := none, completedAt := false }

/-- The update written on entering the converting stage. -/
def updConverting : JobUpdate :=
  { status := some Status.converting, progress := some 70, error := none, completedAt := false }

/-- The update written on completion: it is the only one setting completedAt. -/
def updCompleted : JobUpdate :=
  { status := some Status.completed, progress := some 100, error := none, completedAt := true }

/-- The update written by the catch block: status error plus the message,
and nothing else (in particular no progress value). -/
def errUpdate (msg : String) : JobUpdate :=
  { status := some Status.error, progress := none, error := some msg, completedAt := false }

/-- A summary row as created by storage.createSummary. -/
structure SummaryRec where
  title : String
  description : String
  text : String
  audioUrl : String
  processingJobId : Nat
deriving DecidableEq

/-- The observable effects of one run of processDocuments, in order:
job-row updates, the two collaborator invocations, the audio-file write and
the summary-row insert. -/
inductive Event
  | update (u : JobUpdate)
  | callSummarize (documentText : String)
  | callSynthesize (text : String)
  | writeAudio (filename : String) (bytes : List Nat)
  | createSummary (s : SummaryRec)
deriving DecidableEq

/-- The store as seen by observers of one job: its job row, its summary row
if any, and the stored audio artifacts. -/
structure StoreState where
  job : Job
  summary : Option SummaryRec
  files : List (String × List Nat)
deriving DecidableEq

/-- The store right after job creation, before the background run starts. -/
def initialStore : StoreState := { job := initialJob, summary := none, files := [] }

/-- Effect of one event on the store. -/
def applyEvent (s : StoreState) : Event → StoreState
  | Event.update u => { s with job := applyUpdate s.job u }
  | Event.createSummary sr => { s with summary := some sr }
  | Event.writeAudio f bytes => { s with files := s.files ++ [(f, bytes)] }
  | Event.callSummarize _ => s
  | Event.callSynthesize _ => s

/-! ### The orchestrator — processDocuments -/

/-- The collaborators and stored data one run of processDocuments sees:
the uploads table, the job's uploadIds, the extraction / summarization /
synthesis oracles (none encodes a thrown error, and a missing synthesis
credential is a none key), the resolved credentials, the timestamp used in
the audio filename, and the job id. -/
structure Env where
  store : List Upload
  uploadIds : List Nat
  extract : Upload → Option String
  geminiKey : Option String
  elevenlabsKey : Option String
  llm : String → Option String
  synthesize : String → Option (List Nat)
  now : Nat
  jobId : Nat

/-- The uploads the run fetches for its uploadIds. -/
def Env.fetched (env : Env) : List Upload := getUploads env.store env.uploadIds

/-- One document's contribution to the concatenated text: the labeled
extracted text on success, the labeled inline error marker on failure
(routes source, extraction loop). -/
def extractSegment (ext : Upload → Option String) (u : Upload) : String :=
  match ext u with
  | some t => "\n\n--- Document: " ++ u.filename ++ " ---\n\n" ++ t
  | none => "\n\n--- Document: " ++ u.filename ++ " (Error: Could not extract content) ---\n\n"

/-- The allExtractedText accumulator: string concatenation over the fetched
uploads in order, starting from the empty string. -/
def allExtractedText (ext : Upload → Option String) (uploads : List Upload) : String :=
  uploads.foldl (fun acc u => acc ++ extractSegment ext u) ""

/-- The filesProcessed counter: number of uploads whose extraction
succeeded. -/
def filesProcessed (ext : Upload → Option String) (uploads : List Upload) : Nat :=
  (uploads.filter (fun u => (ext u).isSome)).length

/-- The audio filename built from the current timestamp. -/
def audioFilename (now : Nat) : String := "audio-" ++ toString now ++ ".mp3"

/-- The background run of processDocuments, as the ordered list of its
observable effects.  Branches mirror the source: the processing update;
the empty-fetch throw; the extraction loop with the zero-successes throw;
the summarizing update; the missing-key throw; the Gemini call with its
fatal failure; the converting update; the synthesis attempt whose failure
or absent credential falls back to writing the one-byte placeholder
Buffer.from of a single zero; the summary insert; the completed update.
A throw reaches the catch block, which writes errUpdate. -/
def processDocuments (env : Env) : List Event :=
  if env.fetched.length = 0 then
    [Event.update updProcessing, Event.update (errUpdate "No uploads found")]
  else if filesProcessed env.extract env.fetched = 0 then
    [Event.update updProcessing,
     Event.update (errUpdate "Failed to extract text from any documents.")]
  else
    Event.update updProcessing :: Event.update updSummarizing ::
      (match env.geminiKey with
       | none => [Event.update (errUpdate "Gemini API key is not available")]
       | some _ =>
         Event.callSummarize (allExtractedText env.extract env.fetched) ::
           (match env.llm (allExtractedText env.extract env.fetched) with
            | none => [Event.update (errUpdate "Failed to generate summary with Gemini")]
            | some narrative =>
              Event.update updConverting ::
                ((match env.elevenlabsKey with
                  | none => [Event.writeAudio (audioFilename env.now) [0]]
                  | some _ =>
                    match env.synthesize (mkSummaryResult narrative).text with
                    | some bytes =>
                      [Event.callSynthesize (mkSummaryResult narrative).text,
                       Event.writeAudio (audioFilename env.now) bytes]
                    | none =>
                      [Event.callSynthesize (mkSummaryResult narrative).text,
                       Event.writeAudio (audioFilename env.now) [0]]) ++
                 [Event.createSummary
                    { title := (mkSummaryResult narrative).title
                      description := (mkSummaryResult narrative).description
                      text := (mkSummaryResult narrative).text
                      audioUrl := "/audio/" ++ audioFilename env.now
                      processingJobId := env.jobId }
                  , Event.update updCompleted])))

/-- The store after the whole run. -/
def finalStore (env : Env) : StoreState :=
  (processDocuments env).foldl applyEvent initialStore

/-- All store states along a list of events, starting state included. -/
def scanStates (s : StoreState) : List Event → List StoreState
  | [] => [s]
  | e :: es => s :: scanStates (applyEvent s e) es

/-- Every observable store state during one run, from job creation to the
terminal write. -/
def storeStates (env : Env) : List StoreState :=
  scanStates initialStore (processDocuments env)

/-- Linear position of a status in the pipeline; both terminal statuses are
maximal. -/
def Status.rank : Status → Nat
  | Status.pending => 0
  | Status.processing => 1
  | Status.summarizing => 2
  | Status.converting => 3
  | Status.completed => 4
  | Status.error => 4

/-- Whether a status is terminal. -/
def Status.isTerminal : Status → Bool
  | Status.completed => true
  | Status.error => true
  | _ => false

/-- Whether an event writes a terminal status to the job row. -/
def isTerminalUpdate : Event → Bool
  | Event.update u =>
    match u.status with
    | some s => s.isTerminal
    | none => false
  | _ => false

/-- A job update that writes status and progress together: an update
setting a non-error status also carries a progress value, and an update
carrying a progress value also sets the status.  The error update is the
sole stage transition exempt from carrying progress. -/
def stageUpdateOk : Event → Bool
  | Event.update u =>
    (match u.status with
     | some Status.error => true
     | some _ => u.progress.isSome
     | none => true) &&
    (!u.progress.isSome || u.status.isSome)
  | _ => true

/-- Whether the last event of a run writes a terminal status. -/
def lastEventTerminal : List Event → Bool
  | [] => false
  | [e] => isTerminalUpdate e
  | _ :: rest => lastEventTerminal rest

/-- Spec-side form of the concatenated text: one segment per document,
concatenated in the order of the input document list.  Used to compare the
source's foldl accumulator against the spec's wording. -/
def concatSegments (ext : Upload → Option String) : List Upload → String
  | [] => ""
  | u :: us => extractSegment ext u ++ concatSegments ext us

/-! ### POST /api/process — synchronous validation and job creation -/

/-- A JSON value as far as the request schema distinguishes them. -/
inductive JVal
  | num (n : Nat)
  | str (s : String)
  | other
deriving DecidableEq

/-- The zod array-of-numbers parse of the uploadIds field: succeeds with
the numbers exactly when every element is a number. -/
def parseIds : List JVal → Option (List Nat)
  | [] => some []
  | JVal.num n :: rest => (parseIds rest).map (fun ns => n :: ns)
  | JVal.str _ :: _ => none
  | JVal.other :: _ => none

/-- The request body of POST /api/process as far as validation sees it:
the uploadIds field (none when absent or not an array) and whether the
optional context field matches its schema. -/
structure ProcessBody where
  uploadIds : Option (List JVal)
  contextOk : Bool
deriving DecidableEq

/-- Outcome of the handler: a synchronous 400 rejection with no job and no
background run, or a created job id together with the background run the
handler starts. -/
inductive HandlerResult
  | rejected
  | accepted (jobId : Nat) (run : List Event)
deriving DecidableEq

/-- The POST /api/process handler: schema validation, job creation, then
the detached processDocuments run.  Resolution of the uploadIds against
stored documents happens only inside the background run. -/
def handleProcess (env : Env) (body : ProcessBody) : HandlerResult :=
  match body.uploadIds with
  | none => HandlerResult.rejected
  | some vs =>
    match parseIds vs with
    | none => HandlerResult.rejected
    | some ids =>
      if body.contextOk then
        HandlerResult.accepted env.jobId (processDocuments { env with uploadIds := ids })
      else HandlerResult.rejected

/-! ### processing-section.tsx — the client status poller -/

/-- The summary object of a status response. -/
structure ClientSummary where
  id : Nat
  title : String
  description : String
  text : String
  audioUrl : String
deriving DecidableEq

/-- One response of GET /api/process/:id/status as the poller reads it. -/
structure StatusResponse where
  status : String
  progress : Nat
  summary : Option ClientSummary
  error : Option String
deriving DecidableEq

/-- What one tick of the 2-second interval does: keep the interval running
(with the user-facing progress value it sets, if any), or clear the
interval and hand the summary to the completion handler, or clear the
interval and hand a message to the failure handler. -/
inductive PollAction
  | keepPolling (uiProgress : Option Nat)
  | stopComplete (s : ClientSummary)
  | stopError (msg : String)
deriving DecidableEq

/-- JS logical-or fallback on a possibly absent string: an absent or empty
string yields the default. -/
def jsOrDefault : Option String → String → String
  | some e, d => if e = "" then d else e
  | none, d => d

/-- The switch over statusResult.status in the polling callback
(processing-section source, lines 65-93), case for case.  On completed,
the interval is cleared only inside the branch where the response carries
a summary object. -/
def pollStep (r : StatusResponse) : PollAction :=
  if r.status = "extracting" ∨ r.status = "processing" then PollAction.keepPolling (some 40)
  else if r.status = "summarizing" then PollAction.keepPolling (some 60)
  else if r.status = "converting" then PollAction.keepPolling (some 80)
  else if r.status = "completed" then
    match r.summary with
    | some s => PollAction.stopComplete s
    | none => PollAction.keepPolling (some 100)
  else if r.status = "error" then
    PollAction.stopError (jsOrDefault r.error "An unknown error occurred during processing.")
  else PollAction.keepPolling none

/-- The polls a run of the interval issues against a stream of responses:
each tick reads the next response; the first tick whose action clears the
interval is the last poll issued. -/
def pollRun : List StatusResponse → List PollAction
  | [] => []
  | r :: rs =>
    match pollStep r with
    | PollAction.keepPolling p => PollAction.keepPolling p :: pollRun rs
    | a => [a]

/-! ### storage.ts — API key persistence -/

/-- An api_keys table row as far as saveApiKeys and getApiKeys touch it. -/
structure ApiKeyRec where
  gemini : String
  elevenlabs : String
deriving DecidableEq

/-- storage.saveApiKeys, first statement: delete every existing row. -/
def deleteAllApiKeys (_tbl : List ApiKeyRec) : List ApiKeyRec := []

/-- storage.saveApiKeys, second statement: insert the one new row. -/
def insertApiKey (tbl : List ApiKeyRec) (k : ApiKeyRec) : List ApiKeyRec := tbl ++ [k]

/-- storage.saveApiKeys: delete all rows, then insert the new one. -/
def saveApiKeys (tbl : List ApiKeyRec) (k : ApiKeyRec) : List ApiKeyRec :=
  insertApiKey (deleteAllApiKeys tbl) k

/-- storage.getApiKeys: select with limit 1, i.e. the first row if any. -/
def getApiKeys (tbl : List ApiKeyRec) : Option ApiKeyRec := tbl.head?

/-! ### Concrete environments used by witnesses and counterexamples -/

/-- A stored one-kilobyte PDF upload. -/
def demoUpload : Upload :=
  { id := 1, filename := "doc.pdf", filepath := "uploads/doc.pdf", size := 1000 }

/-- A second stored upload. -/
def demoUpload2 : Upload :=
  { id := 2, filename := "other.pdf", filepath := "uploads/other.pdf", size := 2000 }

/-- The spec's concrete scenario: one document extracting to Hello world,
the summarizer returning the three-paragraph narrative, no synthesis
credential. -/
def demoEnv : Env :=
  { store := [demoUpload]
    uploadIds := [1]
    extract := fun _ => some "Hello world"
    geminiKey := some "gk"
    elevenlabsKey := none
    llm := fun _ => some "Title Line\n\nDescription paragraph\n\nBody..."
    synthesize := fun _ => none
    now := 0
    jobId := 1 }

/-- Two documents, extraction failing on the first and succeeding on the
second. -/
def demoEnvMixed : Env :=
  { store := [demoUpload, demoUpload2]
    uploadIds := [1, 2]
    extract := fun u => if u.id = 1 then none else some "content"
    geminiKey := some "gk"
    elevenlabsKey := none
    llm := fun _ => some "Title Line\n\nDescription paragraph\n\nBody..."
    synthesize := fun _ => none
    now := 0
    jobId := 1 }

/-- One document whose extraction fails. -/
def demoEnvAllFail : Env :=
  { store := [demoUpload]
    uploadIds := [1]
    extract := fun _ => none
    geminiKey := some "gk"
    elevenlabsKey := none
    llm := fun _ => some "Title Line\n\nDescription paragraph\n\nBody..."
    synthesize := fun _ => none
    now := 0
    jobId := 1 }

/-- One document extracting fine, but the Gemini call fails. -/
def demoEnvLlmFails : Env :=
  { store := [demoUpload]
    uploadIds := [1]
    extract := fun _ => some "Hello world"
    geminiKey := some "gk"
    elevenlabsKey := none
    llm := fun _ => none
    synthesize := fun _ => none
    now := 0
    jobId := 1 }

/-- An empty uploads table: every document reference resolves to nothing. -/
def demoEnvEmptyStore : Env :=
  { store := []
    uploadIds := []
    extract := fun _ => none
    geminiKey := none
    elevenlabsKey := none
    llm := fun _ => none
    synthesize := fun _ => none
    now := 0
    jobId := 1 }

/-! ## Helper lemmas and claim theorems -/


theorem mem_nonEmptyLines_ne_empty {narrative l : String}
    (h : l ∈ nonEmptyLines narrative) : l ≠ "" := by
  have hp := (List.mem_filter.mp h).2
  intro he
  subst he
  revert hp
  decide

theorem descLoop_second {l1 l2 : String} (rest : List String)
    (h1 : (jsTrim l1).length != 0) (h2 : (jsTrim l2).length != 0) :
    descLoop (l1 :: l2 :: rest) false = l2 := by
  simp [descLoop, h1, h2]

/-- Claim C1 (amended): for every narrative, the derived record's text is
the full narrative; the title is the first non-empty line with a single
leading heading marker (and following whitespace) stripped, or the generic
title when no line survives the filter; the description falls back to the
generic string whenever fewer than three non-empty lines exist (the first
non-empty line after the title is always skipped), and otherwise is the
third non-empty line, truncated to a 197-character prefix plus an ellipsis
marker when longer than 200 characters. -/
theorem c1_title_description_derivation (narrative : String) :
    (mkSummaryResult narrative).text = narrative ∧
    (∀ l0 rest, nonEmptyLines narrative = l0 :: rest →
      (mkSummaryResult narrative).title = stripHeading l0) ∧
    (nonEmptyLines narrative = [] →
      (mkSummaryResult narrative).title = "Document Summary" ∧
      (mkSummaryResult narrative).description =
        "An AI-generated summary of the uploaded documents.") ∧
    (∀ l0, nonEmptyLines narrative = [l0] →
      (mkSummaryResult narrative).description =
        "An AI-generated summary of the uploaded documents.") ∧
    (∀ l0 l1, nonEmptyLines narrative = [l0, l1] →
      (mkSummaryResult narrative).description =
        "An AI-generated summary of the uploaded documents.") ∧
    (∀ l0 l1 l2 rest, nonEmptyLines narrative = l0 :: l1 :: l2 :: rest →
      ((l2.length ≤ 200 ∧ (mkSummaryResult narrative).description = l2) ∨
       (200 < l2.length ∧
        (mkSummaryResult narrative).description = jsTake l2 197 ++ "..."))) := by
  refine ⟨rfl, ?_, ?_, ?_, ?_, ?_⟩
  · intro l0 rest h
    simp [mkSummaryResult, deriveTitle, h]
  · intro h
    have hloop : descLoop ((nonEmptyLines narrative).tail) false = "" := by
      rw [← List.drop_one, h]
      rfl
    refine ⟨by simp [mkSummaryResult, deriveTitle, h], ?_⟩
    simp only [mkSummaryResult, deriveDescription, List.drop_one, hloop]
    decide
  · intro l0 h
    have hloop : descLoop ((nonEmptyLines narrative).tail) false = "" := by
      rw [← List.drop_one, h]
      rfl
    simp only [mkSummaryResult, deriveDescription, List.drop_one, hloop]
    decide
  · intro l0 l1 h
    have hp1 : ((jsTrim l1).length != 0) = true := by
      have hm : l1 ∈ nonEmptyLines narrative := by rw [h]; simp
      exact (List.mem_filter.mp hm).2
    have hloop : descLoop ((nonEmptyLines narrative).tail) false = "" := by
      rw [← List.drop_one, h]
      simp [descLoop, hp1]
    simp only [mkSummaryResult, deriveDescription, List.drop_one, hloop]
    decide
  · intro l0 l1 l2 rest h
    have hm1 : l1 ∈ nonEmptyLines narrative := by rw [h]; simp
    have hm2 : l2 ∈ nonEmptyLines narrative := by rw [h]; simp
    have hp1 := (List.mem_filter.mp hm1).2
    have hp2 := (List.mem_filter.mp hm2).2
    have hne2 : l2 ≠ "" := mem_nonEmptyLines_ne_empty hm2
    have hraw : descLoop ((nonEmptyLines narrative).tail) false = l2 := by
      rw [← List.drop_one, h]
      exact descLoop_second rest hp1 hp2
    have hd : (mkSummaryResult narrative).description =
        if 200 < l2.length then jsTake l2 197 ++ "..." else l2 := by
      simp only [mkSummaryResult, deriveDescription, List.drop_one, hraw, if_neg hne2]
    by_cases hlen : 200 < l2.length
    · exact Or.inr ⟨hlen, by rw [hd, if_pos hlen]⟩
    · exact Or.inl ⟨by omega, by rw [hd, if_neg hlen]⟩

theorem c1_witness :
    nonEmptyLines "Title Line\n\nDescription paragraph\n\nBody..." =
      ["Title Line", "Description paragraph", "Body..."] ∧
    nonEmptyLines "Only Title" = ["Only Title"] ∧
    (mkSummaryResult "Title Line\n\nDescription paragraph\n\nBody...").title =
      stripHeading "Title Line" ∧
    ((("Body..." : String).length ≤ 200 ∧
      (mkSummaryResult "Title Line\n\nDescription paragraph\n\nBody...").description =
        "Body...") ∨
     (200 < ("Body..." : String).length ∧
      (mkSummaryResult "Title Line\n\nDescription paragraph\n\nBody...").description =
        jsTake "Body..." 197 ++ "...")) ∧
    (mkSummaryResult "Only Title").description =
      "An AI-generated summary of the uploaded documents." :=
  ⟨by decide, by decide,
   (c1_title_description_derivation "Title Line\n\nDescription paragraph\n\nBody...").2.1
     "Title Line" ["Description paragraph", "Body..."] (by decide),
   (c1_title_description_derivation "Title Line\n\nDescription paragraph\n\nBody...").2.2.2.2.2
     "Title Line" "Description paragraph" "Body..." [] (by decide),
   (c1_title_description_derivation "Only Title").2.2.2.1 "Only Title" (by decide)⟩

/-- Claim C1 counterexample: on the claim's own concrete narrative the
derived description is Body... rather than Description paragraph (the
first paragraph after the title line is skipped), and a doubled heading
marker is stripped only once, not entirely. -/
theorem c1_counterexample :
    (mkSummaryResult "Title Line\n\nDescription paragraph\n\nBody...").description ≠
      "Description paragraph" ∧
    deriveTitle "## Heading\n\nDesc\n\nBody" ≠ "Heading" := by decide

/-- Claim C10: saveApiKeys deletes every existing row before inserting
the one new row, so after any non-empty sequence of saves at most one
api-key row exists, and getApiKeys returns exactly the record of the most
recent save. -/
theorem c10_single_api_key_row (init : List ApiKeyRec) (ks : List ApiKeyRec) (h : ks ≠ []) :
    (ks.foldl saveApiKeys init).length ≤ 1 ∧
    getApiKeys (ks.foldl saveApiKeys init) = ks.getLast? := by
  induction ks generalizing init with
  | nil => exact absurd rfl h
  | cons k rest ih =>
    cases rest with
    | nil => simp [saveApiKeys, insertApiKey, deleteAllApiKeys, getApiKeys]
    | cons k2 r2 =>
      have := ih (saveApiKeys init k) (by simp)
      simpa [List.getLast?] using this

theorem c10_witness :
    (([⟨"g1", "e1"⟩, ⟨"g2", "e2"⟩] : List ApiKeyRec) ≠ []) ∧
    ((([⟨"g1", "e1"⟩, ⟨"g2", "e2"⟩] : List ApiKeyRec).foldl saveApiKeys
        [⟨"g0", "e0"⟩]).length ≤ 1 ∧
     getApiKeys (([⟨"g1", "e1"⟩, ⟨"g2", "e2"⟩] : List ApiKeyRec).foldl saveApiKeys
        [⟨"g0", "e0"⟩]) =
       ([⟨"g1", "e1"⟩, ⟨"g2", "e2"⟩] : List ApiKeyRec).getLast?) :=
  ⟨by decide, c10_single_api_key_row [⟨"g0", "e0"⟩] [⟨"g1", "e1"⟩, ⟨"g2", "e2"⟩] (by decide)⟩


theorem filesProcessed_ne_zero {ext : Upload → Option String} {l : List Upload}
    (h : ∃ u ∈ l, (ext u).isSome = true) : filesProcessed ext l ≠ 0 := by
  obtain ⟨u, hu, hsome⟩ := h
  intro h0
  have hnil : l.filter (fun u => (ext u).isSome) = [] := List.length_eq_zero.mp h0
  have := List.filter_eq_nil_iff.mp hnil u hu
  simp [hsome] at this

theorem fetched_length_ne_zero {l : List Upload}
    (h : l ≠ []) : l.length ≠ 0 := by
  simpa [List.length_eq_zero] using h

theorem foldl_append_segments (ext : Upload → Option String) (l : List Upload) (a : String) :
    l.foldl (fun acc u => acc ++ extractSegment ext u) a = a ++ concatSegments ext l := by
  induction l generalizing a with
  | nil => simp [concatSegments, String.append_empty]
  | cons u us ih =>
    simp only [List.foldl_cons, concatSegments, ih, String.append_assoc]

theorem allExtractedText_eq_concatSegments (ext : Upload → Option String) (l : List Upload) :
    allExtractedText ext l = concatSegments ext l := by
  simpa [allExtractedText, String.empty_append] using foldl_append_segments ext l ""

/-- Claim C2: when at least one of the fetched documents extracts
successfully (and at least one fails), the run reaches the summarizing
update with no error update before it, the Gemini collaborator receives the
allExtractedText concatenation, and that concatenation is exactly the
in-order join of one labeled segment per document - the extracted text for
a success, the inline error marker carrying the display name for a
failure. -/
theorem c2_extraction_failures_tolerated (env : Env)
    (hfail : ∃ u ∈ env.fetched, env.extract u = none)
    (hsucc : ∃ u ∈ env.fetched, (env.extract u).isSome = true)
    (hkey : env.geminiKey.isSome = true) :
    (∃ rest, processDocuments env =
      Event.update updProcessing :: Event.update updSummarizing ::
        Event.callSummarize (allExtractedText env.extract env.fetched) :: rest) ∧
    allExtractedText env.extract env.fetched = concatSegments env.extract env.fetched ∧
    (∀ u ∈ env.fetched,
      (∀ t, env.extract u = some t →
        extractSegment env.extract u =
          "\n\n--- Document: " ++ u.filename ++ " ---\n\n" ++ t) ∧
      (env.extract u = none →
        extractSegment env.extract u =
          "\n\n--- Document: " ++ u.filename ++ " (Error: Could not extract content) ---\n\n")) := by
  have hne : env.fetched ≠ [] := by
    obtain ⟨u, hu, _⟩ := hsucc
    exact List.ne_nil_of_mem hu
  obtain ⟨g, hg⟩ := Option.isSome_iff_exists.mp hkey
  refine ⟨?_, allExtractedText_eq_concatSegments env.extract env.fetched, ?_⟩
  · rw [processDocuments, if_neg (fetched_length_ne_zero hne),
      if_neg (filesProcessed_ne_zero hsucc), hg]
    exact ⟨_, rfl⟩
  · intro u _
    constructor
    · intro t ht
      simp [extractSegment, ht]
    · intro ht
      simp [extractSegment, ht]

theorem filesProcessed_eq_zero {ext : Upload → Option String} {l : List Upload}
    (h : ∀ u ∈ l, ext u = none) : filesProcessed ext l = 0 := by
  have : l.filter (fun u => (ext u).isSome) = [] :=
    List.filter_eq_nil_iff.mpr (fun u hu => by simp [h u hu])
  simp [filesProcessed, this]

/-- Claim C3: when every fetched document fails extraction, the run is
exactly the processing update followed by the error update; the final job
row has status error, progress still 20 and a non-empty error message; and
neither the summarization nor the synthesis collaborator is invoked and no
summary row is created. -/
theorem c3_total_extraction_failure (env : Env)
    (hne : env.fetched ≠ [])
    (hall : ∀ u ∈ env.fetched, env.extract u = none) :
    processDocuments env =
      [Event.update updProcessing,
       Event.update (errUpdate "Failed to extract text from any documents.")] ∧
    (finalStore env).job.status = Status.error ∧
    (finalStore env).job.progress = 20 ∧
    (∃ msg, (finalStore env).job.error = some msg ∧ msg ≠ "") ∧
    (∀ e ∈ processDocuments env,
      (∀ t, e ≠ Event.callSummarize t) ∧ (∀ t, e ≠ Event.callSynthesize t) ∧
      (∀ sr, e ≠ Event.createSummary sr)) := by
  have htr : processDocuments env =
      [Event.update updProcessing,
       Event.update (errUpdate "Failed to extract text from any documents.")] := by
    rw [processDocuments, if_neg (fetched_length_ne_zero hne),
      if_pos (filesProcessed_eq_zero hall)]
  refine ⟨htr, ?_, ?_, ?_, ?_⟩
  · simp [finalStore, htr, applyEvent, applyUpdate, initialStore, initialJob,
      updProcessing, errUpdate]
  · simp [finalStore, htr, applyEvent, applyUpdate, initialStore, initialJob,
      updProcessing, errUpdate]
  · refine ⟨"Failed to extract text from any documents.", ?_, by decide⟩
    simp [finalStore, htr, applyEvent, applyUpdate, initialStore, initialJob,
      updProcessing, errUpdate]
  · intro e he
    rw [htr] at he
    simp only [List.mem_cons, List.not_mem_nil, or_false] at he
    rcases he with h | h <;>
      (subst h; exact ⟨fun t => by simp, fun t => by simp, fun sr => by simp⟩)

/-- Claim C4: when the Gemini call fails, the run ends in the error
update right after the callSummarize event; the final job row has status
error with a non-empty descriptive message, no summary row exists, and the
synthesis collaborator is never invoked. -/
theorem c4_summarization_failure_fatal (env : Env)
    (hsucc : ∃ u ∈ env.fetched, (env.extract u).isSome = true)
    (hkey : env.geminiKey.isSome = true)
    (hllm : env.llm (allExtractedText env.extract env.fetched) = none) :
    processDocuments env =
      [Event.update updProcessing, Event.update updSummarizing,
       Event.callSummarize (allExtractedText env.extract env.fetched),
       Event.update (errUpdate "Failed to generate summary with Gemini")] ∧
    (finalStore env).job.status = Status.error ∧
    (∃ msg, (finalStore env).job.error = some msg ∧ msg ≠ "") ∧
    (finalStore env).summary = none ∧
    (∀ e ∈ processDocuments env,
      (∀ t, e ≠ Event.callSynthesize t) ∧ (∀ sr, e ≠ Event.createSummary sr)) := by
  have hne : env.fetched ≠ [] := by
    obtain ⟨u, hu, _⟩ := hsucc
    exact List.ne_nil_of_mem hu
  obtain ⟨g, hg⟩ := Option.isSome_iff_exists.mp hkey
  have htr : processDocuments env =
      [Event.update updProcessing, Event.update updSummarizing,
       Event.callSummarize (allExtractedText env.extract env.fetched),
       Event.update (errUpdate "Failed to generate summary with Gemini")] := by
    rw [processDocuments, if_neg (fetched_length_ne_zero hne),
      if_neg (filesProcessed_ne_zero hsucc), hg, hllm]
  refine ⟨htr, ?_, ?_, ?_, ?_⟩
  · simp [finalStore, htr, applyEvent, applyUpdate, initialStore, initialJob,
      updProcessing, updSummarizing, errUpdate]
  · refine ⟨"Failed to generate summary with Gemini", ?_, by decide⟩
    simp [finalStore, htr, applyEvent, applyUpdate, initialStore, initialJob,
      updProcessing, updSummarizing, errUpdate]
  · simp [finalStore, htr, applyEvent, applyUpdate, initialStore, initialJob,
      updProcessing, updSummarizing, errUpdate]
  · intro e he
    rw [htr] at he
    simp only [List.mem_cons, List.not_mem_nil, or_false] at he
    rcases he with h | h | h | h <;>
      (subst h; exact ⟨fun t => by simp, fun sr => by simp⟩)

/-- Claim C5: when the synthesis credential is absent or every synthesis
call fails, the run still completes - final status completed, progress 100,
completedAt set - a summary row is created whose audioUrl references the
audio filename, and the stored artifact under that filename is the one-byte
placeholder stream. -/
theorem c5_synthesis_failure_nonfatal (env : Env)
    (hsucc : ∃ u ∈ env.fetched, (env.extract u).isSome = true)
    (hkey : env.geminiKey.isSome = true)
    (hllm : (env.llm (allExtractedText env.extract env.fetched)).isSome = true)
    (hsynth : env.elevenlabsKey = none ∨ ∀ t, env.synthesize t = none) :
    (finalStore env).job.status = Status.completed ∧
    (finalStore env).job.progress = 100 ∧
    (finalStore env).job.completedAt = true ∧
    (∃ sr, (finalStore env).summary = some sr ∧
      sr.audioUrl = "/audio/" ++ audioFilename env.now) ∧
    (finalStore env).files = [(audioFilename env.now, [0])] := by
  have hne : env.fetched ≠ [] := by
    obtain ⟨u, hu, _⟩ := hsucc
    exact List.ne_nil_of_mem hu
  obtain ⟨g, hg⟩ := Option.isSome_iff_exists.mp hkey
  obtain ⟨narrative, hnar⟩ := Option.isSome_iff_exists.mp hllm
  have hbase : processDocuments env =
      Event.update updProcessing :: Event.update updSummarizing ::
      Event.callSummarize (allExtractedText env.extract env.fetched) ::
      Event.update updConverting ::
        ((match env.elevenlabsKey with
          | none => [Event.writeAudio (audioFilename env.now) [0]]
          | some _ =>
            match env.synthesize (mkSummaryResult narrative).text with
            | some bytes =>
              [Event.callSynthesize (mkSummaryResult narrative).text,
               Event.writeAudio (audioFilename env.now) bytes]
            | none =>
              [Event.callSynthesize (mkSummaryResult narrative).text,
               Event.writeAudio (audioFilename env.now) [0]]) ++
         [Event.createSummary
            { title := (mkSummaryResult narrative).title
              description := (mkSummaryResult narrative).description
              text := (mkSummaryResult narrative).text
              audioUrl := "/audio/" ++ audioFilename env.now
              processingJobId := env.jobId }
          , Event.update updCompleted]) := by
    rw [processDocuments, if_neg (fetched_length_ne_zero hne),
      if_neg (filesProcessed_ne_zero hsucc), hg, hnar]
  rcases hsynth with hel | hsyn
  · have htr : processDocuments env =
        [Event.update updProcessing, Event.update updSummarizing,
         Event.callSummarize (allExtractedText env.extract env.fetched),
         Event.update updConverting,
         Event.writeAudio (audioFilename env.now) [0],
         Event.createSummary
            { title := (mkSummaryResult narrative).title
              description := (mkSummaryResult narrative).description
              text := (mkSummaryResult narrative).text
              audioUrl := "/audio/" ++ audioFilename env.now
              processingJobId := env.jobId },
         Event.update updCompleted] := by
      rw [hbase, hel]
      rfl
    refine ⟨?_, ?_, ?_,
        ⟨{ title := (mkSummaryResult narrative).title
           description := (mkSummaryResult narrative).description
           text := (mkSummaryResult narrative).text
           audioUrl := "/audio/" ++ audioFilename env.now
           processingJobId := env.jobId }, ?_, rfl⟩, ?_⟩ <;>
      simp [finalStore, htr, applyEvent, applyUpdate, initialStore, initialJob,
        updProcessing, updSummarizing, updConverting, updCompleted]
  · cases hel : env.elevenlabsKey with
    | none =>
      have htr : processDocuments env =
          [Event.update updProcessing, Event.update updSummarizing,
           Event.callSummarize (allExtractedText env.extract env.fetched),
           Event.update updConverting,
           Event.writeAudio (audioFilename env.now) [0],
           Event.createSummary
              { title := (mkSummaryResult narrative).title
                description := (mkSummaryResult narrative).description
                text := (mkSummaryResult narrative).text
                audioUrl := "/audio/" ++ audioFilename env.now
                processingJobId := env.jobId },
           Event.update updCompleted] := by
        rw [hbase, hel]
        rfl
      refine ⟨?_, ?_, ?_,
          ⟨{ title := (mkSummaryResult narrative).title
             description := (mkSummaryResult narrative).description
             text := (mkSummaryResult narrative).text
             audioUrl := "/audio/" ++ audioFilename env.now
             processingJobId := env.jobId }, ?_, rfl⟩, ?_⟩ <;>
        simp [finalStore, htr, applyEvent, applyUpdate, initialStore, initialJob,
          updProcessing, updSummarizing, updConverting, updCompleted]
    | some k =>
      have htr : processDocuments env =
          [Event.update updProcessing, Event.update updSummarizing,
           Event.callSummarize (allExtractedText env.extract env.fetched),
           Event.update updConverting,
           Event.callSynthesize (mkSummaryResult narrative).text,
           Event.writeAudio (audioFilename env.now) [0],
           Event.createSummary
              { title := (mkSummaryResult narrative).title
                description := (mkSummaryResult narrative).description
                text := (mkSummaryResult narrative).text
                audioUrl := "/audio/" ++ audioFilename env.now
                processingJobId := env.jobId },
           Event.update updCompleted] := by
        rw [hbase, hel, hsyn (mkSummaryResult narrative).text]
        rfl
      refine ⟨?_, ?_, ?_,
          ⟨{ title := (mkSummaryResult narrative).title
             description := (mkSummaryResult narrative).description
             text := (mkSummaryResult narrative).text
             audioUrl := "/audio/" ++ audioFilename env.now
             processingJobId := env.jobId }, ?_, rfl⟩, ?_⟩ <;>
        simp [finalStore, htr, applyEvent, applyUpdate, initialStore, initialJob,
          updProcessing, updSummarizing, updConverting, updCompleted]

theorem c2_witness :
    (∃ u ∈ demoEnvMixed.fetched, demoEnvMixed.extract u = none) ∧
    (∃ u ∈ demoEnvMixed.fetched, (demoEnvMixed.extract u).isSome = true) ∧
    demoEnvMixed.geminiKey.isSome = true ∧
    ((∃ rest, processDocuments demoEnvMixed =
      Event.update updProcessing :: Event.update updSummarizing ::
        Event.callSummarize (allExtractedText demoEnvMixed.extract demoEnvMixed.fetched) ::
          rest) ∧
     allExtractedText demoEnvMixed.extract demoEnvMixed.fetched =
       concatSegments demoEnvMixed.extract demoEnvMixed.fetched ∧
     (∀ u ∈ demoEnvMixed.fetched,
      (∀ t, demoEnvMixed.extract u = some t →
        extractSegment demoEnvMixed.extract u =
          "\n\n--- Document: " ++ u.filename ++ " ---\n\n" ++ t) ∧
      (demoEnvMixed.extract u = none →
        extractSegment demoEnvMixed.extract u =
          "\n\n--- Document: " ++ u.filename ++
            " (Error: Could not extract content) ---\n\n"))) :=
  ⟨by decide, by decide, by decide,
   c2_extraction_failures_tolerated demoEnvMixed (by decide) (by decide) (by decide)⟩

theorem c3_witness :
    demoEnvAllFail.fetched ≠ [] ∧
    (∀ u ∈ demoEnvAllFail.fetched, demoEnvAllFail.extract u = none) ∧
    (processDocuments demoEnvAllFail =
      [Event.update updProcessing,
       Event.update (errUpdate "Failed to extract text from any documents.")] ∧
     (finalStore demoEnvAllFail).job.status = Status.error ∧
     (finalStore demoEnvAllFail).job.progress = 20 ∧
     (∃ msg, (finalStore demoEnvAllFail).job.error = some msg ∧ msg ≠ "") ∧
     (∀ e ∈ processDocuments demoEnvAllFail,
      (∀ t, e ≠ Event.callSummarize t) ∧ (∀ t, e ≠ Event.callSynthesize t) ∧
      (∀ sr, e ≠ Event.createSummary sr))) :=
  ⟨by decide, by decide,
   c3_total_extraction_failure demoEnvAllFail (by decide) (by decide)⟩

theorem c4_witness :
    (∃ u ∈ demoEnvLlmFails.fetched, (demoEnvLlmFails.extract u).isSome = true) ∧
    demoEnvLlmFails.geminiKey.isSome = true ∧
    demoEnvLlmFails.llm
      (allExtractedText demoEnvLlmFails.extract demoEnvLlmFails.fetched) = none ∧
    (processDocuments demoEnvLlmFails =
      [Event.update updProcessing, Event.update updSummarizing,
       Event.callSummarize
         (allExtractedText demoEnvLlmFails.extract demoEnvLlmFails.fetched),
       Event.update (errUpdate "Failed to generate summary with Gemini")] ∧
     (finalStore demoEnvLlmFails).job.status = Status.error ∧
     (∃ msg, (finalStore demoEnvLlmFails).job.error = some msg ∧ msg ≠ "") ∧
     (finalStore demoEnvLlmFails).summary = none ∧
     (∀ e ∈ processDocuments demoEnvLlmFails,
      (∀ t, e ≠ Event.callSynthesize t) ∧ (∀ sr, e ≠ Event.createSummary sr))) :=
  ⟨by decide, by decide, rfl,
   c4_summarization_failure_fatal demoEnvLlmFails (by decide) (by decide) rfl⟩

theorem c5_witness :
    (∃ u ∈ demoEnv.fetched, (demoEnv.extract u).isSome = true) ∧
    demoEnv.geminiKey.isSome = true ∧
    (demoEnv.llm (allExtractedText demoEnv.extract demoEnv.fetched)).isSome = true ∧
    demoEnv.elevenlabsKey = none ∧
    ((finalStore demoEnv).job.status = Status.completed ∧
     (finalStore demoEnv).job.progress = 100 ∧
     (finalStore demoEnv).job.completedAt = true ∧
     (∃ sr, (finalStore demoEnv).summary = some sr ∧
       sr.audioUrl = "/audio/" ++ audioFilename demoEnv.now) ∧
     (finalStore demoEnv).files = [(audioFilename demoEnv.now, [0])]) :=
  ⟨by decide, by decide, rfl, rfl,
   c5_synthesis_failure_nonfatal demoEnv (by decide) (by decide) rfl (Or.inl rfl)⟩

/-- Exhaustive case split: every run of processDocuments takes one of
five shapes - an extraction-stage error, a missing-key error, a
summarization error after the Gemini call, or a completed run with or
without a synthesis attempt. -/
theorem trace_cases (env : Env) :
    (∃ m, processDocuments env =
      [Event.update updProcessing, Event.update (errUpdate m)]) ∨
    (processDocuments env =
      [Event.update updProcessing, Event.update updSummarizing,
       Event.update (errUpdate "Gemini API key is not available")]) ∨
    (∃ t, processDocuments env =
      [Event.update updProcessing, Event.update updSummarizing,
       Event.callSummarize t,
       Event.update (errUpdate "Failed to generate summary with Gemini")]) ∨
    (∃ t x f b sr, processDocuments env =
      [Event.update updProcessing, Event.update updSummarizing,
       Event.callSummarize t, Event.update updConverting,
       Event.callSynthesize x, Event.writeAudio f b,
       Event.createSummary sr, Event.update updCompleted]) ∨
    (∃ t f sr, processDocuments env =
      [Event.update updProcessing, Event.update updSummarizing,
       Event.callSummarize t, Event.update updConverting,
       Event.writeAudio f [0],
       Event.createSummary sr, Event.update updCompleted]) := by
  by_cases h1 : env.fetched.length = 0
  · exact Or.inl ⟨"No uploads found", by rw [processDocuments, if_pos h1]⟩
  by_cases h2 : filesProcessed env.extract env.fetched = 0
  · exact Or.inl ⟨"Failed to extract text from any documents.",
      by rw [processDocuments, if_neg h1, if_pos h2]⟩
  cases hg : env.geminiKey with
  | none =>
    exact Or.inr (Or.inl (by rw [processDocuments, if_neg h1, if_neg h2, hg]))
  | some g =>
    cases hl : env.llm (allExtractedText env.extract env.fetched) with
    | none =>
      exact Or.inr (Or.inr (Or.inl ⟨allExtractedText env.extract env.fetched,
        by rw [processDocuments, if_neg h1, if_neg h2, hg, hl]⟩))
    | some narrative =>
      cases he : env.elevenlabsKey with
      | none =>
        refine Or.inr (Or.inr (Or.inr (Or.inr
          ⟨allExtractedText env.extract env.fetched, audioFilename env.now,
           { title := (mkSummaryResult narrative).title
             description := (mkSummaryResult narrative).description
             text := (mkSummaryResult narrative).text
             audioUrl := "/audio/" ++ audioFilename env.now
             processingJobId := env.jobId }, ?_⟩)))
        rw [processDocuments, if_neg h1, if_neg h2, hg, hl, he]
        rfl
      | some k =>
        have hbase : processDocuments env =
            Event.update updProcessing :: Event.update updSummarizing ::
            Event.callSummarize (allExtractedText env.extract env.fetched) ::
            Event.update updConverting ::
              ((match env.synthesize (mkSummaryResult narrative).text with
                | some bytes =>
                  [Event.callSynthesize (mkSummaryResult narrative).text,
                   Event.writeAudio (audioFilename env.now) bytes]
                | none =>
                  [Event.callSynthesize (mkSummaryResult narrative).text,
                   Event.writeAudio (audioFilename env.now) [0]]) ++
               [Event.createSummary
                  { title := (mkSummaryResult narrative).title
                    description := (mkSummaryResult narrative).description
                    text := (mkSummaryResult narrative).text
                    audioUrl := "/audio/" ++ audioFilename env.now
                    processingJobId := env.jobId }
                , Event.update updCompleted]) := by
          rw [processDocuments, if_neg h1, if_neg h2, hg, hl, he]
        cases hs : env.synthesize (mkSummaryResult narrative).text with
        | none =>
          rw [hs] at hbase
          refine Or.inr (Or.inr (Or.inr (Or.inl
            ⟨allExtractedText env.extract env.fetched,
             (mkSummaryResult narrative).text, audioFilename env.now, [0],
             { title := (mkSummaryResult narrative).title
               description := (mkSummaryResult narrative).description
               text := (mkSummaryResult narrative).text
               audioUrl := "/audio/" ++ audioFilename env.now
               processingJobId := env.jobId }, ?_⟩)))
          rw [hbase]
          rfl
        | some bytes =>
          rw [hs] at hbase
          refine Or.inr (Or.inr (Or.inr (Or.inl
            ⟨allExtractedText env.extract env.fetched,
             (mkSummaryResult narrative).text, audioFilename env.now, bytes,
             { title := (mkSummaryResult narrative).title
               description := (mkSummaryResult narrative).description
               text := (mkSummaryResult narrative).text
               audioUrl := "/audio/" ++ audioFilename env.now
               processingJobId := env.jobId }, ?_⟩)))
          rw [hbase]
          rfl

/-- Claim C7: along every run, job progress is non-decreasing and the
status never moves to an earlier stage; every non-error status update
carries a progress value and every progress value comes with a status; and
exactly one terminal status is written, by the run's last event, so no
field changes after it. -/
theorem c7_job_state_machine (env : Env) :
    List.Chain' (fun a b => a.job.progress ≤ b.job.progress) (storeStates env) ∧
    List.Chain' (fun a b => a.job.status.rank ≤ b.job.status.rank) (storeStates env) ∧
    (∀ e ∈ processDocuments env, stageUpdateOk e = true) ∧
    (processDocuments env).countP isTerminalUpdate = 1 ∧
    lastEventTerminal (processDocuments env) = true := by
  rcases trace_cases env with ⟨m, h⟩ | h | ⟨t, h⟩ | ⟨t, x, f, b, sr, h⟩ | ⟨t, f, sr, h⟩ <;>
    refine ⟨?_, ?_, ?_, ?_, ?_⟩ <;>
      simp [storeStates, h, scanStates, applyEvent, applyUpdate, initialStore, initialJob,
        updProcessing, updSummarizing, updConverting, updCompleted, errUpdate,
        Status.rank, stageUpdateOk, isTerminalUpdate, Status.isTerminal,
        lastEventTerminal, List.chain'_cons, List.countP_cons, List.forall_mem_cons]

/-- Claim C6 (amended): at every observable store state of a run, a
completed status guarantees a summary row exists, and a summary row can
only be observed while the status is converting or completed - the row is
inserted one store operation before the completed update, so the biconditional
of the original claim fails only in that one converting-state window. -/
theorem c6_summary_visibility (env : Env) :
    ∀ st ∈ storeStates env,
      (st.job.status = Status.completed → st.summary.isSome = true) ∧
      (st.summary.isSome = true →
        st.job.status = Status.converting ∨ st.job.status = Status.completed) := by
  rcases trace_cases env with ⟨m, h⟩ | h | ⟨t, h⟩ | ⟨t, x, f, b, sr, h⟩ | ⟨t, f, sr, h⟩ <;>
    simp [storeStates, h, scanStates, applyEvent, applyUpdate, initialStore, initialJob,
      updProcessing, updSummarizing, updConverting, updCompleted, errUpdate,
      List.forall_mem_cons]

/-- Claim C6 counterexample: right after the summary insert and before
the completed update - an observable store state of the demo run - the job
row still says converting while the summary lookup already returns a
record, so a summary exists while the status is not completed. -/
theorem c6_counterexample :
    (((processDocuments demoEnv).take 6).foldl applyEvent initialStore ∈
      storeStates demoEnv) ∧
    (((processDocuments demoEnv).take 6).foldl applyEvent initialStore).summary.isSome
      = true ∧
    (((processDocuments demoEnv).take 6).foldl applyEvent initialStore).job.status
      = Status.converting ∧
    Status.converting ≠ Status.completed := by decide

theorem c6_witness :
    ((finalStore demoEnv ∈ storeStates demoEnv) ∧
     (finalStore demoEnv).job.status = Status.completed →
       (finalStore demoEnv).summary.isSome = true) ∧
    ((finalStore demoEnv).summary.isSome = true →
      (finalStore demoEnv).job.status = Status.converting ∨
        (finalStore demoEnv).job.status = Status.completed) :=
  ⟨fun h => (c6_summary_visibility demoEnv (finalStore demoEnv) (by decide)).1 h.2,
   (c6_summary_visibility demoEnv (finalStore demoEnv) (by decide)).2⟩

theorem c7_witness :
    List.Chain' (fun a b => a.job.progress ≤ b.job.progress) (storeStates demoEnv) ∧
    List.Chain' (fun a b => a.job.status.rank ≤ b.job.status.rank) (storeStates demoEnv) ∧
    (∀ e ∈ processDocuments demoEnv, stageUpdateOk e = true) ∧
    (processDocuments demoEnv).countP isTerminalUpdate = 1 ∧
    lastEventTerminal (processDocuments demoEnv) = true :=
  c7_job_state_machine demoEnv

/-- Claim C8 counterexample: a status response with terminal status
completed but no summary object leaves the interval running - the poller
issues a further poll after observing a terminal status, against the
claim. -/
theorem c8_counterexample :
    pollStep { status := "completed", progress := 100, summary := none, error := none } =
      PollAction.keepPolling (some 100) ∧
    pollRun
      [{ status := "completed", progress := 100, summary := none, error := none },
       { status := "completed", progress := 100, summary := none, error := none }] =
      [PollAction.keepPolling (some 100), PollAction.keepPolling (some 100)] := by
  decide

/-- Claim C8 (amended): on an error status the poller stops and hands
the failure handler the error field verbatim when it is a non-empty string
(a default message when absent); on a completed status carrying a summary
it stops and delivers that summary; on a completed status without a
summary it keeps polling; and whenever a poll's action is not keepPolling,
no further poll is issued. -/
theorem c8_poller_behavior (r : StatusResponse) :
    (∀ e, r.status = "error" → r.error = some e → e ≠ "" →
      pollStep r = PollAction.stopError e) ∧
    (r.status = "error" → r.error = none →
      pollStep r = PollAction.stopError "An unknown error occurred during processing.") ∧
    (∀ s, r.status = "completed" → r.summary = some s →
      pollStep r = PollAction.stopComplete s) ∧
    (r.status = "completed" → r.summary = none →
      pollStep r = PollAction.keepPolling (some 100)) ∧
    (∀ rs, (∀ p, pollStep r ≠ PollAction.keepPolling p) →
      pollRun (r :: rs) = [pollStep r]) := by
  refine ⟨?_, ?_, ?_, ?_, ?_⟩
  · intro e hst herr hne
    simp [pollStep, hst, herr, jsOrDefault, hne]
  · intro hst herr
    simp [pollStep, hst, herr, jsOrDefault]
  · intro s hst hsum
    simp [pollStep, hst, hsum]
  · intro hst hsum
    simp [pollStep, hst, hsum]
  · intro rs hstop
    cases hp : pollStep r with
    | keepPolling p => exact absurd hp (hstop p)
    | stopComplete s => simp [pollRun, hp]
    | stopError m => simp [pollRun, hp]

theorem c8_witness :
    pollStep { status := "error", progress := 20, summary := none, error := some "boom" } =
      PollAction.stopError "boom" ∧
    pollRun [{ status := "error", progress := 20, summary := none, error := some "boom" }] =
      [PollAction.stopError "boom"] := by
  have h1 : pollStep
      { status := "error", progress := 20, summary := none, error := some "boom" } =
      PollAction.stopError "boom" :=
    (c8_poller_behavior _).1 "boom" rfl rfl (by decide)
  have h2 := (c8_poller_behavior
      { status := "error", progress := 20, summary := none, error := some "boom" }).2.2.2.2 []
    (fun p hp => by rw [h1] at hp; exact PollAction.noConfusion hp)
  exact ⟨h1, by rw [h2, h1]⟩

/-- Claim C9 counterexample: a request whose single document reference
resolves to no stored document is not rejected - the handler accepts it,
creates the job and starts a background run, which then terminates in the
error state with the No uploads found message. -/
theorem c9_counterexample :
    handleProcess demoEnvEmptyStore { uploadIds := some [JVal.num 42], contextOk := true } =
      HandlerResult.accepted 1
        [Event.update updProcessing, Event.update (errUpdate "No uploads found")] ∧
    handleProcess demoEnvEmptyStore { uploadIds := some [JVal.num 42], contextOk := true } ≠
      HandlerResult.rejected := by decide

/-- Claim C9 (amended): only structurally malformed requests (missing or
non-numeric uploadIds, invalid context) are rejected synchronously with no
background run; a well-formed request whose references resolve to no
stored documents is accepted, a background run starts, and that run ends
in the error state. -/
theorem c9_validation_behavior (env : Env) (body : ProcessBody) :
    (body.uploadIds = none → handleProcess env body = HandlerResult.rejected) ∧
    (∀ vs, body.uploadIds = some vs → parseIds vs = none →
      handleProcess env body = HandlerResult.rejected) ∧
    (body.contextOk = false → handleProcess env body = HandlerResult.rejected) ∧
    (∀ vs ids, body.uploadIds = some vs → parseIds vs = some ids →
      body.contextOk = true → getUploads env.store ids = [] →
      handleProcess env body =
        HandlerResult.accepted env.jobId
          [Event.update updProcessing, Event.update (errUpdate "No uploads found")]) := by
  refine ⟨?_, ?_, ?_, ?_⟩
  · intro h
    simp [handleProcess, h]
  · intro vs h hp
    simp [handleProcess, h, hp]
  · intro hc
    cases hb : body.uploadIds with
    | none => simp [handleProcess, hb]
    | some vs =>
      cases hp : parseIds vs with
      | none => simp [handleProcess, hb, hp]
      | some ids => simp [handleProcess, hb, hp, hc]
  · intro vs ids hb hp hc hres
    simp [handleProcess, hb, hp, hc, processDocuments, Env.fetched, hres]

theorem c9_witness :
    parseIds [JVal.str "bad"] = none ∧
    handleProcess demoEnvEmptyStore
      { uploadIds := some [JVal.str "bad"], contextOk := true } =
      HandlerResult.rejected :=
  ⟨rfl, (c9_validation_behavior demoEnvEmptyStore _).2.1 [JVal.str "bad"] rfl rfl⟩

end AudioWeaver
